import Mathlib

/-!
Verification of the backend-config resolution table
(`torch/ao/quantization/fx/backend_config/native.py`) and of the lazy-backend
graph-extraction test harness (`test/lazy/test_extract_compiled_graph.py`).

Python callables, module classes and enum members are embedded as inductive
types; the config dictionaries become a fixed-shape record with optional
fields; the generator functions are translated one-to-one, preserving entry
order.
-/

namespace NativeBackendConfig

/-- Torch dtypes appearing in the dtype configs of `native.py`. -/
inductive DTypeId where
  | quint8
  | qint8
  | float
  | float16
  deriving DecidableEq, Repr

/-- A dtype config record: optional input/weight/bias/output dtype constraints
(the keys of the dtype-config dicts in `native.py`). -/
structure DTypeConfig where
  input_dtype : Option DTypeId
  weight_dtype : Option DTypeId
  bias_dtype : Option DTypeId
  output_dtype : Option DTypeId
  deriving DecidableEq, Repr

/-- `weighted_op_int8_dtype_config` from `native.py`. -/
def weighted_op_int8_dtype_config : DTypeConfig :=
  { input_dtype := some .quint8
    weight_dtype := some .qint8
    bias_dtype := some .float
    output_dtype := some .quint8 }

/-- `default_op_quint8_dtype_config` from `native.py`. -/
def default_op_quint8_dtype_config : DTypeConfig :=
  { input_dtype := some .quint8
    weight_dtype := none
    bias_dtype := none
    output_dtype := some .quint8 }

/-- `default_op_fp16_dtype_config` from `native.py`. -/
def default_op_fp16_dtype_config : DTypeConfig :=
  { input_dtype := some .float16
    weight_dtype := some .float16
    bias_dtype := none
    output_dtype := some .float16 }

/-- `ObservationType` enum (imported by `native.py` from `observation_type.py`;
both members appear in the source). -/
inductive ObservationType where
  | OUTPUT_USE_DIFFERENT_OBSERVER_AS_INPUT
  | OUTPUT_SHARE_OBSERVER_WITH_INPUT
  deriving DecidableEq, Repr

/-- Operator identifiers used as (parts of) patterns or as metadata values in
`native.py`.  Each constructor stands for one distinct Python object (module
class, function, or method); `torch.nn.functional` is the alias `F`, so e.g.
`torch.nn.functional.elu` and `F.elu` are the same constructor `F_elu`. -/
inductive OpId where
  -- torch.nn module classes
  | torch_nn_ConvTranspose1d
  | torch_nn_ConvTranspose2d
  | torch_nn_ELU
  | torch_nn_LeakyReLU
  | torch_nn_Hardswish
  | torch_nn_InstanceNorm1d
  | torch_nn_InstanceNorm2d
  | torch_nn_InstanceNorm3d
  | torch_nn_LayerNorm
  | torch_nn_Dropout
  | torch_nn_Linear
  | torch_nn_ReLU
  | torch_nn_Conv1d
  | torch_nn_Conv2d
  | torch_nn_Conv3d
  | torch_nn_Hardsigmoid
  | torch_nn_Sigmoid
  | torch_nn_Tanh
  | torch_nn_BatchNorm2d
  | torch_nn_BatchNorm3d
  | torch_nn_AdaptiveAvgPool1d
  | torch_nn_AdaptiveAvgPool2d
  | torch_nn_AdaptiveAvgPool3d
  | torch_nn_AvgPool1d
  | torch_nn_AvgPool2d
  | torch_nn_AvgPool3d
  | torch_nn_Hardtanh
  | torch_nn_Identity
  | torch_nn_MaxPool1d
  | torch_nn_MaxPool2d
  | torch_nn_MaxPool3d
  | torch_nn_ReLU6
  -- torch.nn.functional (= F) functions
  | F_elu
  | F_hardswish
  | F_instance_norm
  | F_leaky_relu
  | F_dropout
  | F_layer_norm
  | F_linear
  | F_relu
  | F_conv1d
  | F_conv2d
  | F_conv3d
  | F_hardsigmoid
  | F_adaptive_avg_pool2d
  | F_adaptive_avg_pool3d
  | F_hardtanh
  | F_hardtanh_
  | F_interpolate
  | F_max_pool1d
  | F_max_pool2d
  | F_max_pool3d
  | F_relu6
  -- torch namespace functions
  | torch_add
  | torch_mul
  | torch_relu
  | torch_sigmoid
  | torch_tanh
  | torch_cat
  | torch_adaptive_avg_pool1d
  | torch_avg_pool1d
  | torch_C_nn_avg_pool2d
  | torch_C_nn_avg_pool3d
  | torch_clamp
  | torch_flatten
  | torch_mean
  | torch_repeat_interleave
  | torch_transpose
  | torch_squeeze
  | torch_stack
  | torch_unsqueeze
  -- operator module functions
  | operator_add
  | operator_mul
  | operator_floordiv
  -- torch.nn.qat (= nnqat) module classes
  | nnqat_Linear
  | nnqat_Conv1d
  | nnqat_Conv2d
  | nnqat_Conv3d
  -- torch.nn.quantized._reference (= nnqr) module classes
  | nnqr_Linear
  | nnqr_Conv1d
  | nnqr_Conv2d
  | nnqr_Conv3d
  -- torch.nn.intrinsic (= nni) module classes
  | nni_LinearReLU
  | nni_LinearBn1d
  | nni_ConvReLU1d
  | nni_ConvReLU2d
  | nni_ConvReLU3d
  | nni_BNReLU2d
  | nni_BNReLU3d
  -- torch.nn.intrinsic.qat (= nniqat) module classes
  | nniqat_LinearReLU
  | nniqat_LinearBn1d
  | nniqat_ConvReLU1d
  | nniqat_ConvReLU2d
  | nniqat_ConvReLU3d
  | nniqat_ConvBn1d
  | nniqat_ConvBn2d
  | nniqat_ConvBn3d
  | nniqat_ConvBnReLU1d
  | nniqat_ConvBnReLU2d
  | nniqat_ConvBnReLU3d
  deriving DecidableEq, Repr

/-- A pattern key: a single operator identifier, a 2-tuple
`(later_op, earlier_op)` denoting a fused chain, or a method-name string
(README format used by `native.py`). -/
inductive Pattern where
  | op (o : OpId)
  | chain2 (later earlier : OpId)
  | str (s : String)
  deriving DecidableEq, Repr

/-- The two fixed-qparams observers imported by `native.py` from
`...observer`. -/
inductive ObserverId where
  | default_affine_fixed_qparams_observer
  | default_symmetric_fixed_qparams_observer
  deriving DecidableEq, Repr

/-- `FixedQParamsFakeQuantize.with_args(observer=o)`: a fake-quantizer factory
parameterized by its observer. -/
structure FixedQParamsFakeQuantizeWithArgs where
  observer : ObserverId
  deriving DecidableEq, Repr

/-- `reverse_sequential_wrapper2(m)`: a fuser method determined by the fused
module it produces. -/
structure ReverseSequentialWrapper2 where
  fused : OpId
  deriving DecidableEq, Repr

/-- One entry of the `"configs"` list: the config dicts of `native.py` as a
fixed-shape record, absent dict keys becoming `none`. -/
structure BackendOpConfig where
  pattern : Pattern
  observation_type : Option ObservationType
  dtype_configs : List DTypeConfig
  root_module : Option OpId
  reference_quantized_module_for_root : Option OpId
  qat_module : Option OpId
  fuser_method : Option ReverseSequentialWrapper2
  num_tensor_args_to_observation_type : Option (List (Nat × ObservationType))
  overwrite_output_fake_quantizer : Option FixedQParamsFakeQuantizeWithArgs
  overwrite_output_observer : Option ObserverId
  deriving DecidableEq, Repr

/-- A config record with only pattern, observation type and dtype configs set
(every other dict key absent). -/
def cfgBase (p : Pattern) (ot : Option ObservationType) (dc : List DTypeConfig) :
    BackendOpConfig :=
  { pattern := p
    observation_type := ot
    dtype_configs := dc
    root_module := none
    reference_quantized_module_for_root := none
    qat_module := none
    fuser_method := none
    num_tensor_args_to_observation_type := none
    overwrite_output_fake_quantizer := none
    overwrite_output_observer := none }

/-- `_get_default_op_backend_config(op, dtype_configs)` from `native.py`. -/
def _get_default_op_backend_config (op : OpId) (dtype_configs : List DTypeConfig) :
    BackendOpConfig :=
  cfgBase (.op op) (some .OUTPUT_USE_DIFFERENT_OBSERVER_AS_INPUT) dtype_configs

/-- `_DEFAULT_OP_INT8_CONFIGS` from `native.py`. -/
def _DEFAULT_OP_INT8_CONFIGS : List BackendOpConfig :=
  [OpId.torch_nn_ConvTranspose1d,
   OpId.torch_nn_ConvTranspose2d,
   OpId.torch_nn_ELU,
   OpId.torch_nn_LeakyReLU,
   OpId.torch_nn_Hardswish,
   OpId.torch_nn_InstanceNorm1d,
   OpId.torch_nn_InstanceNorm2d,
   OpId.torch_nn_InstanceNorm3d,
   OpId.torch_nn_LayerNorm,
   OpId.torch_nn_Dropout,
   OpId.F_elu,
   OpId.F_hardswish,
   OpId.F_instance_norm,
   OpId.F_leaky_relu,
   OpId.F_dropout,
   OpId.F_layer_norm].map
    (fun op => _get_default_op_backend_config op [default_op_quint8_dtype_config])

/-- `_ConvMetadata` namedtuple from `native.py`. -/
structure _ConvMetadata where
  root : OpId
  reference : OpId
  qat : OpId
  relu : OpId
  relu_qat : OpId
  bn_qat : OpId
  bn_relu_qat : OpId
  func : OpId
  deriving DecidableEq, Repr

/-- `_Conv1dMetadata` from `native.py`. -/
def _Conv1dMetadata : _ConvMetadata :=
  ⟨.torch_nn_Conv1d, .nnqr_Conv1d, .nnqat_Conv1d, .nni_ConvReLU1d,
   .nniqat_ConvReLU1d, .nniqat_ConvBn1d, .nniqat_ConvBnReLU1d, .F_conv1d⟩

/-- `_Conv2dMetadata` from `native.py`. -/
def _Conv2dMetadata : _ConvMetadata :=
  ⟨.torch_nn_Conv2d, .nnqr_Conv2d, .nnqat_Conv2d, .nni_ConvReLU2d,
   .nniqat_ConvReLU2d, .nniqat_ConvBn2d, .nniqat_ConvBnReLU2d, .F_conv2d⟩

/-- `_Conv3dMetadata` from `native.py`. -/
def _Conv3dMetadata : _ConvMetadata :=
  ⟨.torch_nn_Conv3d, .nnqr_Conv3d, .nnqat_Conv3d, .nni_ConvReLU3d,
   .nniqat_ConvReLU3d, .nniqat_ConvBn3d, .nniqat_ConvBnReLU3d, .F_conv3d⟩

/-- `_get_linear_configs()` from `native.py`, entry for entry in source
order. -/
def _get_linear_configs : List BackendOpConfig :=
  let observation_type := ObservationType.OUTPUT_USE_DIFFERENT_OBSERVER_AS_INPUT
  let dtype_configs := [weighted_op_int8_dtype_config]
  [ -- linear module
    { cfgBase (.op .torch_nn_Linear) (some observation_type) dtype_configs with
      root_module := some .torch_nn_Linear
      reference_quantized_module_for_root := some .nnqr_Linear
      qat_module := some .nnqat_Linear },
    -- linear qat module
    { cfgBase (.op .nnqat_Linear) (some observation_type) dtype_configs with
      root_module := some .torch_nn_Linear
      reference_quantized_module_for_root := some .nnqr_Linear },
    -- functional linear
    cfgBase (.op .F_linear) (some observation_type) dtype_configs,
    -- linear relu, fused module
    { cfgBase (.op .nni_LinearReLU) (some observation_type) dtype_configs with
      root_module := some .torch_nn_Linear
      reference_quantized_module_for_root := some .nnqr_Linear
      qat_module := some .nniqat_LinearReLU },
    -- linear relu, qat fused module
    { cfgBase (.op .nniqat_LinearReLU) (some observation_type) dtype_configs with
      root_module := some .torch_nn_Linear
      reference_quantized_module_for_root := some .nnqr_Linear },
    -- linear relu, linear module + relu module
    { cfgBase (.chain2 .torch_nn_ReLU .torch_nn_Linear) (some observation_type) dtype_configs with
      fuser_method := some ⟨.nni_LinearReLU⟩ },
    -- linear relu, linear module + functional relu
    { cfgBase (.chain2 .F_relu .torch_nn_Linear) (some observation_type) dtype_configs with
      fuser_method := some ⟨.nni_LinearReLU⟩ },
    -- linear relu, functional linear + relu module
    cfgBase (.chain2 .torch_nn_ReLU .F_linear) (some observation_type) dtype_configs,
    -- linear relu, functional linear + functional relu
    cfgBase (.chain2 .F_relu .F_linear) (some observation_type) dtype_configs,
    -- linear bn, fused module
    { cfgBase (.op .nni_LinearBn1d) (some observation_type) dtype_configs with
      root_module := some .torch_nn_Linear
      reference_quantized_module_for_root := some .nnqr_Linear
      qat_module := some .nniqat_LinearBn1d },
    -- linear bn, qat fused module
    { cfgBase (.op .nniqat_LinearBn1d) (some observation_type) dtype_configs with
      root_module := some .torch_nn_Linear
      reference_quantized_module_for_root := some .nnqr_Linear } ]

/-- `_get_conv_configs()` from `native.py`: the body of the loop over
`[_Conv1dMetadata, _Conv2dMetadata, _Conv3dMetadata]`. -/
def convConfigsFor (convs : _ConvMetadata) : List BackendOpConfig :=
  let observation_type := ObservationType.OUTPUT_USE_DIFFERENT_OBSERVER_AS_INPUT
  let dtype_configs := [weighted_op_int8_dtype_config]
  [ -- conv module
    { cfgBase (.op convs.root) (some observation_type) dtype_configs with
      root_module := some convs.root
      reference_quantized_module_for_root := some convs.reference
      qat_module := some convs.qat },
    -- conv qat module
    { cfgBase (.op convs.qat) (some observation_type) dtype_configs with
      root_module := some convs.root
      reference_quantized_module_for_root := some convs.reference },
    -- functional conv
    cfgBase (.op convs.func) (some observation_type) dtype_configs,
    -- conv relu, fused module
    { cfgBase (.op convs.relu) (some observation_type) dtype_configs with
      root_module := some convs.root
      reference_quantized_module_for_root := some convs.reference
      qat_module := some convs.relu_qat },
    -- conv relu, qat fused module
    { cfgBase (.op convs.relu_qat) (some observation_type) dtype_configs with
      root_module := some convs.root
      reference_quantized_module_for_root := some convs.reference },
    -- conv relu, conv module + relu module
    { cfgBase (.chain2 .torch_nn_ReLU convs.root) (some observation_type) dtype_configs with
      fuser_method := some ⟨convs.relu⟩ },
    -- conv relu, conv module + functional relu
    { cfgBase (.chain2 .F_relu convs.root) (some observation_type) dtype_configs with
      fuser_method := some ⟨convs.relu⟩ },
    -- conv relu, functional conv + relu module
    cfgBase (.chain2 .torch_nn_ReLU convs.func) (some observation_type) dtype_configs,
    -- conv relu, functional conv + functional relu
    cfgBase (.chain2 .F_relu convs.func) (some observation_type) dtype_configs,
    -- conv bn, qat fused module
    { cfgBase (.op convs.bn_qat) (some observation_type) dtype_configs with
      root_module := some convs.root
      reference_quantized_module_for_root := some convs.reference },
    -- conv bn relu, qat fused module
    { cfgBase (.op convs.bn_relu_qat) (some observation_type) dtype_configs with
      root_module := some convs.root
      reference_quantized_module_for_root := some convs.reference } ]

/-- `_get_conv_configs()` from `native.py`. -/
def _get_conv_configs : List BackendOpConfig :=
  ([_Conv1dMetadata, _Conv2dMetadata, _Conv3dMetadata].map convConfigsFor).flatten

/-- `num_tensor_args_to_observation_type_mapping` from
`_get_binary_op_configs`. -/
def num_tensor_args_to_observation_type_mapping : List (Nat × ObservationType) :=
  [(0, .OUTPUT_USE_DIFFERENT_OBSERVER_AS_INPUT),
   (1, .OUTPUT_SHARE_OBSERVER_WITH_INPUT),
   (2, .OUTPUT_USE_DIFFERENT_OBSERVER_AS_INPUT)]

/-- `_get_binary_op_configs()` from `native.py`: four entries per binary op
(three relu-chain variants, then the standalone op), for
`operator.add, torch.add, operator.mul, torch.mul`. -/
def _get_binary_op_configs : List BackendOpConfig :=
  let dtype_configs := [weighted_op_int8_dtype_config]
  ([OpId.operator_add, OpId.torch_add, OpId.operator_mul, OpId.torch_mul].map
    (fun bop =>
      [ { cfgBase (.chain2 .torch_nn_ReLU bop) none dtype_configs with
          num_tensor_args_to_observation_type :=
            some num_tensor_args_to_observation_type_mapping },
        { cfgBase (.chain2 .F_relu bop) none dtype_configs with
          num_tensor_args_to_observation_type :=
            some num_tensor_args_to_observation_type_mapping },
        { cfgBase (.chain2 .torch_relu bop) none dtype_configs with
          num_tensor_args_to_observation_type :=
            some num_tensor_args_to_observation_type_mapping },
        { cfgBase (.op bop) none dtype_configs with
          num_tensor_args_to_observation_type :=
            some num_tensor_args_to_observation_type_mapping } ])).flatten

/-- The `(fixed_qparam_op, output_observer)` pairs iterated by
`_get_fixed_qparams_op_configs`. -/
def fixedQParamsOpList : List (Pattern × ObserverId) :=
  [(.op .torch_nn_Hardsigmoid, .default_affine_fixed_qparams_observer),
   (.op .F_hardsigmoid, .default_affine_fixed_qparams_observer),
   (.str "hardsigmoid", .default_affine_fixed_qparams_observer),
   (.str "hardsigmoid_", .default_affine_fixed_qparams_observer),
   (.op .torch_nn_Sigmoid, .default_affine_fixed_qparams_observer),
   (.op .torch_sigmoid, .default_affine_fixed_qparams_observer),
   (.str "sigmoid", .default_affine_fixed_qparams_observer),
   (.str "sigmoid_", .default_affine_fixed_qparams_observer),
   (.op .torch_nn_Tanh, .default_symmetric_fixed_qparams_observer),
   (.op .torch_tanh, .default_symmetric_fixed_qparams_observer),
   (.str "tanh", .default_symmetric_fixed_qparams_observer),
   (.str "tanh_", .default_symmetric_fixed_qparams_observer)]

/-- `_get_fixed_qparams_op_configs()` from `native.py`. -/
def _get_fixed_qparams_op_configs : List BackendOpConfig :=
  fixedQParamsOpList.map (fun p =>
    { cfgBase p.1 (some .OUTPUT_USE_DIFFERENT_OBSERVER_AS_INPUT)
        [weighted_op_int8_dtype_config] with
      overwrite_output_fake_quantizer := some ⟨p.2⟩
      overwrite_output_observer := some p.2 })

/-- `_CAT_CONFIG` from `native.py`. -/
def _CAT_CONFIG : BackendOpConfig :=
  cfgBase (.op .torch_cat) (some .OUTPUT_SHARE_OBSERVER_WITH_INPUT)
    [default_op_quint8_dtype_config]

/-- `_get_bn_configs()` from `native.py` (the commented-out fused-relu entries
of the source are absent here as well). -/
def _get_bn_configs : List BackendOpConfig :=
  ([OpId.torch_nn_BatchNorm2d, OpId.torch_nn_BatchNorm3d].map (fun bn =>
    cfgBase (.op bn) (some .OUTPUT_USE_DIFFERENT_OBSERVER_AS_INPUT)
      [default_op_quint8_dtype_config])) ++
  ([OpId.nni_BNReLU2d, OpId.nni_BNReLU3d].map (fun fused_bn =>
    cfgBase (.op fused_bn) (some .OUTPUT_USE_DIFFERENT_OBSERVER_AS_INPUT)
      [default_op_quint8_dtype_config]))

/-- `share_qparams_ops` from `_get_share_qparams_op_configs`. -/
def share_qparams_ops : List Pattern :=
  [.op .torch_nn_AdaptiveAvgPool1d,
   .op .torch_nn_AdaptiveAvgPool2d,
   .op .torch_nn_AdaptiveAvgPool3d,
   .op .torch_nn_AvgPool1d,
   .op .torch_nn_AvgPool2d,
   .op .torch_nn_AvgPool3d,
   .op .torch_nn_Hardtanh,
   .op .torch_nn_Identity,
   .op .torch_nn_MaxPool1d,
   .op .torch_nn_MaxPool2d,
   .op .torch_nn_MaxPool3d,
   .op .torch_nn_ReLU,
   .op .torch_nn_ReLU6,
   .op .torch_adaptive_avg_pool1d,
   .op .F_adaptive_avg_pool2d,
   .op .F_adaptive_avg_pool3d,
   .op .F_hardtanh,
   .op .F_hardtanh_,
   .op .F_interpolate,
   .op .F_max_pool1d,
   .op .F_max_pool2d,
   .op .F_max_pool3d,
   .op .F_relu,
   .op .F_relu6,
   .op .torch_avg_pool1d,
   .op .torch_C_nn_avg_pool2d,
   .op .torch_C_nn_avg_pool3d,
   .op .torch_clamp,
   .op .torch_flatten,
   .op .torch_mean,
   .op .torch_repeat_interleave,
   .op .torch_transpose,
   .op .torch_squeeze,
   .op .torch_stack,
   .op .torch_unsqueeze,
   .op .operator_floordiv,
   .str "contiguous",
   .str "clamp",
   .str "detach",
   .str "detach_",
   .str "mean",
   .str "permute",
   .str "repeat",
   .str "repeat_interleave",
   .str "reshape",
   .str "resize_",
   .str "relu",
   .str "relu_",
   .str "shape",
   .str "size",
   .str "squeeze",
   .str "squeeze_",
   .str "transpose",
   .str "unsqueeze",
   .str "unsqueeze_",
   .str "view"]

/-- `_get_share_qparams_op_configs()` from `native.py`
(`_get_share_qprams_op_backend_config` applied to each op). -/
def _get_share_qparams_op_configs : List BackendOpConfig :=
  share_qparams_ops.map (fun op =>
    cfgBase op (some .OUTPUT_SHARE_OBSERVER_WITH_INPUT)
      [default_op_quint8_dtype_config])

/-- The dictionary returned by `get_native_backend_config_dict`. -/
structure BackendConfigDict where
  name : String
  configs : List BackendOpConfig
  deriving DecidableEq, Repr

/-- `get_native_backend_config_dict()` from `native.py`: concatenates the
generator outputs, in source order, with no further processing.  The `Unit`
argument mirrors that the Python function rebuilds the dict on every call. -/
def get_native_backend_config_dict (_u : Unit) : BackendConfigDict :=
  { name := "native"
    configs :=
      _DEFAULT_OP_INT8_CONFIGS ++
      _get_linear_configs ++
      _get_conv_configs ++
      _get_binary_op_configs ++
      _get_fixed_qparams_op_configs ++
      [_CAT_CONFIG] ++
      _get_bn_configs ++
      _get_share_qparams_op_configs }

/-- `resolve(generators)`: the resolution step of
`get_native_backend_config_dict`, which splats each generator's returned list
into one `"configs"` list — plain concatenation in generator order, with no
duplicate-pattern processing. -/
def resolveConfigs (generators : List (Unit → List BackendOpConfig)) :
    List BackendOpConfig :=
  (generators.map (fun g => g ())).flatten

/-- The ordered generator list of `get_native_backend_config_dict`
(`_CAT_CONFIG` is a single splatted element). -/
def nativeBackendConfigGenerators : List (Unit → List BackendOpConfig) :=
  [fun _ => _DEFAULT_OP_INT8_CONFIGS,
   fun _ => _get_linear_configs,
   fun _ => _get_conv_configs,
   fun _ => _get_binary_op_configs,
   fun _ => _get_fixed_qparams_op_configs,
   fun _ => [_CAT_CONFIG],
   fun _ => _get_bn_configs,
   fun _ => _get_share_qparams_op_configs]

/-- The fixed-qparams patterns that are hardsigmoid or sigmoid variants
(module, function and method-name forms). -/
def hardsigmoidSigmoidPatterns : List Pattern :=
  [.op .torch_nn_Hardsigmoid, .op .F_hardsigmoid,
   .str "hardsigmoid", .str "hardsigmoid_",
   .op .torch_nn_Sigmoid, .op .torch_sigmoid,
   .str "sigmoid", .str "sigmoid_"]

/-- The fixed-qparams patterns that are tanh variants (module, function and
method-name forms). -/
def tanhPatterns : List Pattern :=
  [.op .torch_nn_Tanh, .op .torch_tanh, .str "tanh", .str "tanh_"]

end NativeBackendConfig

namespace LazyHarness

/-- Reference to a value in a captured graph: a declared graph input or the
output of an earlier node. -/
inductive Ref where
  | input (i : Nat)
  | node (i : Nat)
  deriving DecidableEq, Repr

/-- One node of a captured graph: operator identifier, ordered input
references, and literal (host-side scalar) attributes. -/
structure LazyNode where
  op : String
  inputs : List Ref
  scalars : List Int
  deriving DecidableEq, Repr

/-- A captured graph: declared input count, nodes in capture order, and the
declared ordered list of output references. -/
structure CapturedGraph where
  numInputs : Nat
  nodes : List LazyNode
  outputs : List Ref
  deriving DecidableEq, Repr

/-- A lowered (backend-executable) graph: backend input handles, the lowered
nodes (1:1 with the captured nodes), and the ordered output handles —
duplicates by reference preserved. -/
structure LoweredGraph where
  inputHandles : List Nat
  loweredNodes : List LazyNode
  outputHandles : List Ref
  deriving DecidableEq, Repr

/-- Modelled from the spec: the extraction walk of
`torch._lazy.extract_compiled_graph` (not under `src/`; only its test is).
Walks the captured nodes in order and returns the operator identifier of the
first node that is unsupported — an operator is treated as unsupported when it
is the configured force-fallback operator, regardless of native support. -/
def findFallbackOp (native : String → Bool) (forced : Option String) :
    List LazyNode → Option String
  | [] => none
  | n :: ns =>
      if forced = some n.op ∨ native n.op = false then some n.op
      else findFallbackOp native forced ns

/-- Modelled from the spec: the text of the fallback error raised by
`torch._lazy.extract_compiled_graph` (not under `src/`) contains the literal
substring "fallback" and the operator's qualified name. -/
def fallback_message (op : String) : String :=
  "fallback: " ++ op

/-- Modelled from the spec: `torch._lazy.extract_compiled_graph` (not under
`src/`; only its test is).  If some captured node's operator is unsupported,
extraction aborts with a fallback error naming that operator and no partial
graph is produced; otherwise every node is lowered 1:1 and the lowered graph
records one backend input handle per declared input and one output handle per
declared output, duplicates by reference preserved. -/
def extract_compiled_graph (native : String → Bool) (forced : Option String)
    (g : CapturedGraph) : Except String LoweredGraph :=
  match findFallbackOp native forced g.nodes with
  | some op => .error (fallback_message op)
  | none =>
      .ok { inputHandles := List.range g.numInputs
            loweredNodes := g.nodes
            outputHandles := g.outputs }

/-- Resolve a reference against the call's arguments and the results arena
(`d` is the out-of-range default). -/
def resolveRef {V : Type} (args : List V) (arena : List V) (d : V) : Ref → V
  | .input i => args.getD i d
  | .node i => arena.getD i d

/-- Execute the lowered nodes in order, extending the results arena by each
node's value (`sem` gives the backend semantics of one operator applied to its
input values and scalar attributes). -/
def computeArena {V : Type} (sem : String → List V → List Int → V)
    (args : List V) (d : V) : List LazyNode → List V → List V
  | [], arena => arena
  | n :: ns, arena =>
      computeArena sem args d ns
        (arena ++ [sem n.op (n.inputs.map (resolveRef args arena d)) n.scalars])

/-- Modelled from the spec: one call of the compiled-graph runner returned by
`torch._lazy.extract_compiled_graph` (not under `src/`).  Executes the lowered
graph on fresh arguments and returns, per declared output position, the
backend handle (the arena reference — positions sharing a handle hold the
identical value) together with the value it resolves to. -/
def run_compiled_graph {V : Type} (sem : String → List V → List Int → V)
    (d : V) (lg : LoweredGraph) (args : List V) : List (Ref × V) :=
  let arena := computeArena sem args d lg.loweredNodes []
  lg.outputHandles.map (fun r => (r, resolveRef args arena d r))

/-- Modelled from the spec: the process-wide state of `torch._lazy.config`
(not under `src/`), whose force-fallback accessors the test harness calls. -/
structure LTCConfig where
  force_fallback : String
  deriving DecidableEq, Repr

/-- Modelled from the spec: `torch._lazy.config.get_force_fallback` (not under
`src/`). -/
def get_force_fallback (c : LTCConfig) : String :=
  c.force_fallback

/-- Modelled from the spec: `torch._lazy.config.set_force_fallback` (not under
`src/`). -/
def set_force_fallback (s : String) (_c : LTCConfig) : LTCConfig :=
  { force_fallback := s }

/-- `force_fallback_ctx_mgr(fallback_op)` from
`test_extract_compiled_graph.py`: reads the old setting, installs
`fallback_op`, runs the block (which returns normally or raises, and may
itself mutate the configuration), and in the `finally` clause restores the
saved setting.  The block is a state transformer returning `Except`, so both
outcomes are covered. -/
def force_fallback_ctx_mgr {ε β : Type} (fallback_op : String)
    (body : LTCConfig → Except ε β × LTCConfig) (c0 : LTCConfig) :
    Except ε β × LTCConfig :=
  let oldconfig := get_force_fallback c0
  let res := body (set_force_fallback fallback_op c0)
  (res.1, set_force_fallback oldconfig res.2)

/-- A Python value as seen by the harness comparison `allclose`: a tensor or a
list/tuple of values (the flag records tuple vs. list; the harness treats both
alike). -/
inductive PyObj (T : Type) where
  | tensor (t : T)
  | seq (isTuple : Bool) (elems : List (PyObj T))

/-- The inner `unwrap` of `allclose` from `test_extract_compiled_graph.py`: a
one-element list or tuple becomes its sole element. -/
def unwrap {T : Type} : PyObj T → PyObj T
  | .seq _ [x] => x
  | cont => cont

/-- `torch.allclose` at the harness's call sites: defined on two tensors
(`ac` is the numeric tolerance comparison, treated as opaque), a TypeError on
anything else. -/
def torch_allclose {T : Type} (ac : T → T → Bool) :
    PyObj T → PyObj T → Except String Bool
  | .tensor a, .tensor b => .ok (ac a b)
  | _, _ => .error "TypeError"

/-- `all(torch.allclose(a, b) for a, b in zip(expected, actual))` from
`allclose`: short-circuits on the first non-close pair; `zip` stops at the
shorter list. -/
def allclose_zip {T : Type} (ac : T → T → Bool) :
    List (PyObj T) → List (PyObj T) → Except String Bool
  | x :: xs, y :: ys =>
      match torch_allclose ac x y with
      | .error e => .error e
      | .ok true => allclose_zip ac xs ys
      | .ok false => .ok false
  | _, _ => .ok true

/-- `allclose(expected, actual)` from `test_extract_compiled_graph.py`:
unwraps one-element sequences on both sides, compares two tensors with
`torch.allclose`, compares two sequences by equal length and pairwise
`torch.allclose`, and raises "Unexpected types" otherwise. -/
def allclose {T : Type} (ac : T → T → Bool) (expected actual : PyObj T) :
    Except String Bool :=
  match unwrap expected, unwrap actual with
  | .tensor t1, .tensor t2 => .ok (ac t1 t2)
  | .seq _ xs, .seq _ ys =>
      if xs.length = ys.length then allclose_zip ac xs ys else .ok false
  | _, _ => .error "Unexpected types"

/-- The indices `i < ncase` whose random sample fails the `allclose` check in
`verify_reusing_compiled_graph` (`failed_index` in the source; `rand i` is the
`gen_rand_args` draw of iteration `i`). -/
def failed_index {α β : Type} (mod optimized_mod : α → β) (ac : β → β → Bool)
    (rand : Nat → α) (ncase : Nat) : List Nat :=
  (List.range ncase).filter
    (fun i => !(ac (mod (rand i)) (optimized_mod (rand i))))

/-- `verify_reusing_compiled_graph(mod, exception_msg_pattern=None, ncase)`
from `test_extract_compiled_graph.py`, with `extraction` standing for the
outcome of `extract_compiled_graph(fx.symbolic_trace(mod), args)`: with no
expected exception pattern an extraction error is re-raised; otherwise `ncase`
fresh random samples are drawn, each compared by `allclose`, and a
`RuntimeError` reporting the failing-case count is raised when any sample
fails. -/
def verify_reusing_compiled_graph {α β : Type} (mod : α → β)
    (extraction : Except String (α → β)) (ac : β → β → Bool)
    (rand : Nat → α) (ncase : Nat) : Except String Unit :=
  match extraction with
  | .error e => .error e
  | .ok optimized_mod =>
      let failed := failed_index mod optimized_mod ac rand ncase
      if 0 < failed.length then
        .error ("Failed " ++ toString failed.length ++ "/" ++ toString ncase
          ++ " cases")
      else
        .ok ()

/-- The `ncase` default of `verify_reusing_compiled_graph`. -/
def verify_default_ncase : Nat := 10

/-- The graph captured from `ModuleSub.forward(a, b) = a - b`. -/
def ModuleSub_graph : CapturedGraph :=
  { numInputs := 2
    nodes := [⟨"aten::sub", [.input 0, .input 1], []⟩]
    outputs := [.node 0] }

/-- The graph captured from `ModuleReturnDupTensor.forward(a, b)`:
`c = a + b; return a - b, c, a + 1, c` — the value `c` appears at output
positions 1 and 3. -/
def ModuleReturnDupTensor_graph : CapturedGraph :=
  { numInputs := 2
    nodes := [⟨"aten::add", [.input 0, .input 1], []⟩,
              ⟨"aten::sub", [.input 0, .input 1], []⟩,
              ⟨"aten::add", [.input 0], [1]⟩]
    outputs := [.node 1, .node 0, .node 2, .node 0] }

/-- An integer-valued backend semantics for the two operators of the example
modules, used to instantiate the runner at concrete inputs. -/
def intSem : String → List Int → List Int → Int
  | "aten::add", [a, b], [] => a + b
  | "aten::add", [a], [s] => a + s
  | "aten::sub", [a, b], [] => a - b
  | _, _, _ => 0

/-- The lowered graph that extraction produces for
`ModuleReturnDupTensor_graph` when every operator is supported. -/
def dupLowered : LoweredGraph :=
  { inputHandles := [0, 1]
    loweredNodes := ModuleReturnDupTensor_graph.nodes
    outputHandles := ModuleReturnDupTensor_graph.outputs }

end LazyHarness

section ResolutionTheorems

open NativeBackendConfig

theorem get_native_configs_eq_resolve (u : Unit) :
    (get_native_backend_config_dict u).configs =
      resolveConfigs nativeBackendConfigGenerators := by
  simp [get_native_backend_config_dict, resolveConfigs,
    nativeBackendConfigGenerators]

/-- C1 (counterexample): resolving two generators that both register a config
for the single operator identifier `torch.nn.Linear` does not fail — it
appends both entries, and the resulting table violates pattern uniqueness. -/
theorem resolve_duplicate_pattern_appends_counterexample :
    resolveConfigs
      [fun _ => [cfgBase (Pattern.op OpId.torch_nn_Linear) none []],
       fun _ => [cfgBase (Pattern.op OpId.torch_nn_Linear) none []]] =
      [cfgBase (Pattern.op OpId.torch_nn_Linear) none [],
       cfgBase (Pattern.op OpId.torch_nn_Linear) none []] ∧
    ¬ ((resolveConfigs
        [fun _ => [cfgBase (Pattern.op OpId.torch_nn_Linear) none []],
         fun _ => [cfgBase (Pattern.op OpId.torch_nn_Linear) none []]]).map
        (fun c => c.pattern)).Nodup := by
  exact ⟨rfl, by decide⟩

/-- C1 (amended): resolution performs no duplicate-pattern detection — for
every generator list and every pattern, the number of entries carrying that
pattern in the resolved table is the sum of the counts contributed by the
generators, so a pattern registered by two generators yields two table
entries rather than an error. -/
theorem resolveConfigs_appends_all_entries
    (gens : List (Unit → List BackendOpConfig)) (p : Pattern) :
    ((resolveConfigs gens).map (fun c => c.pattern)).count p =
      (gens.map (fun g => ((g ()).map (fun c => c.pattern)).count p)).sum := by
  induction gens with
  | nil => rfl
  | cons g gs ih =>
      have hcons : resolveConfigs (g :: gs) = g () ++ resolveConfigs gs := by
        simp [resolveConfigs]
      rw [hcons]
      simp only [List.map_append, List.count_append, List.map_cons,
        List.sum_cons, ih]

set_option maxRecDepth 10000 in
set_option maxHeartbeats 4000000 in
/-- C2: in the table returned by `get_native_backend_config_dict`, no two
entries of the `"configs"` list share an identical `"pattern"` value. -/
theorem native_backend_config_patterns_nodup :
    ((get_native_backend_config_dict ()).configs.map
      (fun c => c.pattern)).Nodup := by
  decide

/-- C9: resolving the same ordered generator list twice yields identical
content — two calls to `get_native_backend_config_dict` return dictionaries
whose `"configs"` lists have the same length and pairwise-equal entries, in
the same order. -/
theorem get_native_backend_config_dict_idempotent (u1 u2 : Unit) :
    (get_native_backend_config_dict u1).configs.length =
      (get_native_backend_config_dict u2).configs.length ∧
    List.Forall₂ Eq (get_native_backend_config_dict u1).configs
      (get_native_backend_config_dict u2).configs := by
  cases u1; cases u2
  exact ⟨rfl, List.forall₂_same.mpr (fun a _ => rfl)⟩

/-- C7: every binary-op config entry carries the
number-of-tensor-arguments-to-observation-type mapping, which assigns the
share-observer-with-input strategy exactly at one tensor argument and the
different-observer strategy at zero or two tensor arguments. -/
theorem binary_op_configs_observation_mapping :
    ∀ c ∈ _get_binary_op_configs,
      c.num_tensor_args_to_observation_type =
        some num_tensor_args_to_observation_type_mapping ∧
      num_tensor_args_to_observation_type_mapping.lookup 0 =
        some ObservationType.OUTPUT_USE_DIFFERENT_OBSERVER_AS_INPUT ∧
      num_tensor_args_to_observation_type_mapping.lookup 1 =
        some ObservationType.OUTPUT_SHARE_OBSERVER_WITH_INPUT ∧
      num_tensor_args_to_observation_type_mapping.lookup 2 =
        some ObservationType.OUTPUT_USE_DIFFERENT_OBSERVER_AS_INPUT ∧
      ∀ p ∈ num_tensor_args_to_observation_type_mapping,
        (p.2 = ObservationType.OUTPUT_SHARE_OBSERVER_WITH_INPUT ↔ p.1 = 1) := by
  decide

theorem binary_op_configs_observation_mapping_witness :
    (_get_binary_op_configs.getD 0
      (cfgBase (Pattern.op OpId.operator_add) none
        [])).num_tensor_args_to_observation_type =
      some num_tensor_args_to_observation_type_mapping :=
  (binary_op_configs_observation_mapping _ (by decide)).1

/-- C8: each of the twelve fixed-qparams entries carries both an overriding
output observer and an overriding output fake-quantizer factory; the
hardsigmoid and sigmoid variants use the affine fixed-qparams observer and the
tanh variants use the symmetric one. -/
theorem fixed_qparams_op_configs_observers :
    _get_fixed_qparams_op_configs.length = 12 ∧
    ∀ c ∈ _get_fixed_qparams_op_configs,
      (c.pattern ∈ hardsigmoidSigmoidPatterns ∨ c.pattern ∈ tanhPatterns) ∧
      (c.pattern ∈ hardsigmoidSigmoidPatterns →
        c.overwrite_output_observer =
          some ObserverId.default_affine_fixed_qparams_observer ∧
        c.overwrite_output_fake_quantizer =
          some ⟨ObserverId.default_affine_fixed_qparams_observer⟩) ∧
      (c.pattern ∈ tanhPatterns →
        c.overwrite_output_observer =
          some ObserverId.default_symmetric_fixed_qparams_observer ∧
        c.overwrite_output_fake_quantizer =
          some ⟨ObserverId.default_symmetric_fixed_qparams_observer⟩) := by
  decide

theorem fixed_qparams_op_configs_observers_witness :
    (_get_fixed_qparams_op_configs.getD 8
      (cfgBase (Pattern.op OpId.torch_nn_Tanh) none
        [])).overwrite_output_observer =
      some ObserverId.default_symmetric_fixed_qparams_observer :=
  ((fixed_qparams_op_configs_observers.2 _ (by decide)).2.2 (by decide)).1

end ResolutionTheorems

section HarnessTheorems

open LazyHarness

/-- C5: for every prior setting and every scoped block,
`force_fallback_ctx_mgr` leaves the force-fallback configuration at the value
read before entry, and passes the block's outcome (normal return or raised
exception) through unchanged. -/
theorem force_fallback_ctx_mgr_restores {ε β : Type} (fallback_op : String)
    (body : LTCConfig → Except ε β × LTCConfig) (c0 : LTCConfig) :
    get_force_fallback (force_fallback_ctx_mgr fallback_op body c0).2 =
      get_force_fallback c0 ∧
    (force_fallback_ctx_mgr fallback_op body c0).1 =
      (body (set_force_fallback fallback_op c0)).1 :=
  ⟨rfl, rfl⟩

/-- C10: `allclose` unwraps a one-element list or tuple to its sole element
before comparing — applied to a one-element sequence holding tensor `tP` and
a bare tensor `t`, it returns exactly `torch.allclose tP t`. -/
theorem allclose_unwraps_singleton {T : Type} (ac : T → T → Bool)
    (t tP : T) (b : Bool) :
    allclose ac (PyObj.seq b [PyObj.tensor tP]) (PyObj.tensor t) =
      Except.ok (ac tP t) :=
  rfl

theorem findFallbackOp_forced (native : String → Bool) (x : String) :
    ∀ ns : List LazyNode, (∀ n ∈ ns, native n.op = true) →
      x ∈ ns.map (fun n => n.op) →
      findFallbackOp native (some x) ns = some x := by
  intro ns
  induction ns with
  | nil => intro _ h; simp at h
  | cons n ns ih =>
      intro hnat hmem
      by_cases hx : x = n.op
      · subst hx
        simp [findFallbackOp]
      · have hnat' : ∀ m ∈ ns, native m.op = true :=
          fun m hm => hnat m (List.mem_cons_of_mem n hm)
        have hmem' : x ∈ ns.map (fun m => m.op) := by
          rcases List.mem_cons.mp hmem with h | h
          · exact absurd h hx
          · exact h
        have hnative : native n.op = true := hnat n (List.mem_cons_self n ns)
        simp [findFallbackOp, hx, hnative, ih hnat' hmem']

/-- C4: if the force-fallback configuration holds operator `x`, the captured
graph contains `x`, and every graph operator is natively supported, extraction
fails with a message that contains the literal substring "fallback" and the
qualified name of `x`, with "fallback" occurring before the name — so the
message matches the pattern "fallback.*x". -/
theorem forced_fallback_error_message (native : String → Bool) (x : String)
    (g : CapturedGraph)
    (hnative : ∀ n ∈ g.nodes, native n.op = true)
    (hmem : x ∈ g.nodes.map (fun n => n.op)) :
    extract_compiled_graph native (some x) g =
      Except.error (fallback_message x) ∧
    List.IsInfix "fallback".toList (fallback_message x).toList ∧
    List.IsInfix x.toList (fallback_message x).toList ∧
    fallback_message x = "fallback" ++ ": " ++ x := by
  refine ⟨?_, ?_, ?_, ?_⟩
  · simp [extract_compiled_graph,
      findFallbackOp_forced native x g.nodes hnative hmem]
  · exact ⟨[], ": ".toList ++ x.toList, rfl⟩
  · exact ⟨"fallback: ".toList, [], by simp [fallback_message]⟩
  · rfl

theorem forced_fallback_error_message_witness :
    extract_compiled_graph (fun _ => true) (some "aten::sub") ModuleSub_graph =
      Except.error (fallback_message "aten::sub") :=
  (forced_fallback_error_message (fun _ => true) "aten::sub" ModuleSub_graph
    (fun _ _ => rfl) (by decide)).1

/-- C3: whenever extraction succeeds on a captured graph whose declared
outputs hold the same reference at two positions, the lowered graph holds the
identical backend handle at both positions, and on every input the runner's
result holds the identical (handle, value) entry at both positions. -/
theorem dup_output_identity (native : String → Bool) (forced : Option String)
    (g : CapturedGraph) (lg : LoweredGraph) (i j : Nat) (r : Ref)
    (hok : extract_compiled_graph native forced g = Except.ok lg)
    (hi : g.outputs[i]? = some r) (hj : g.outputs[j]? = some r) :
    lg.outputHandles[i]? = some r ∧ lg.outputHandles[j]? = some r ∧
    ∀ (V : Type) (sem : String → List V → List Int → V) (d : V)
      (args : List V),
      (run_compiled_graph sem d lg args)[i]? =
        (run_compiled_graph sem d lg args)[j]? := by
  have hlg : lg.outputHandles = g.outputs := by
    unfold extract_compiled_graph at hok
    cases hfb : findFallbackOp native forced g.nodes with
    | some op => rw [hfb] at hok; exact absurd hok (by simp)
    | none =>
        rw [hfb] at hok
        have := Except.ok.inj hok
        rw [← this]
  refine ⟨by rw [hlg]; exact hi, by rw [hlg]; exact hj, ?_⟩
  intro V sem d args
  simp only [run_compiled_graph, List.getElem?_map, hlg, hi, hj]

theorem dup_output_identity_witness :
    (run_compiled_graph intSem 0 dupLowered [2, 3])[1]? =
      (run_compiled_graph intSem 0 dupLowered [2, 3])[3]? :=
  (dup_output_identity (fun _ => true) none ModuleReturnDupTensor_graph
    dupLowered 1 3 (Ref.node 0) rfl rfl rfl).2.2 Int intSem 0 [2, 3]

end HarnessTheorems

section VerifyTheorems
open LazyHarness

theorem verify_reusing_compiled_graph_failure_count {α β : Type}
    (mod optimized_mod : α → β) (ac : β → β → Bool) (rand : Nat → α)
    (ncase : Nat) :
    (0 < (failed_index mod optimized_mod ac rand ncase).length →
      verify_reusing_compiled_graph mod (Except.ok optimized_mod) ac rand ncase =
        Except.error ("Failed " ++
          toString (failed_index mod optimized_mod ac rand ncase).length ++
          "/" ++ toString ncase ++ " cases")) ∧
    ((failed_index mod optimized_mod ac rand ncase).length = 0 →
      verify_reusing_compiled_graph mod (Except.ok optimized_mod) ac rand ncase =
        Except.ok ()) ∧
    ((failed_index mod optimized_mod ac rand ncase).length = 0 ↔
      ∀ i, i < ncase → ac (mod (rand i)) (optimized_mod (rand i)) = true) := by
  refine ⟨?_, ?_, ?_⟩
  · intro h
    simp [verify_reusing_compiled_graph, h]
  · intro h
    simp [verify_reusing_compiled_graph, h]
  · rw [List.length_eq_zero]
    unfold failed_index
    rw [List.filter_eq_nil_iff]
    constructor
    · intro h i hi
      have := h i (List.mem_range.mpr hi)
      simpa using this
    · intro h a ha
      have := h a (List.mem_range.mp ha)
      simp [this]

theorem verify_reusing_compiled_graph_failure_count_witness :
    verify_reusing_compiled_graph (fun n : Nat => n)
      (Except.ok (fun n : Nat => n + 1)) (fun a b => a == b) (fun i => i) 10 =
      Except.error "Failed 10/10 cases" :=
  ((verify_reusing_compiled_graph_failure_count (fun n : Nat => n)
      (fun n : Nat => n + 1) (fun a b => a == b) (fun i => i) 10).1
    (by decide)).trans (congrArg Except.error (by decide))

end VerifyTheorems
